import Mathlib

/-!
Verification of the persistent tiered memory subsystem
(`server/memory_db.py`, `server/memory_manager.py`, `server/memory_config.py`,
`server/memory_prompts.py`).

Modelling conventions:
* Real-valued quantities (embedding coordinates, cosine distances, similarity
  thresholds) are modelled as `Rat`; the code only ever compares them with
  `≤` / `<` and subtracts constants, which is exact over the rationals.
* The external collaborators `embed_fn` and `chat_fn` are fallible black
  boxes; they are modelled as functions into `Except String _`, where
  `Except.error` stands for a raised exception.  Python's `try/except`
  wrappers become `match` on that `Except`.
* The sqlite-vec KNN distance metric lives in the extension, outside the
  repository, so the distance function is a parameter `dist`; `search_facts`
  itself (sort ascending by distance, take `k`) is modelled faithfully.
* `json.loads` (used by `_parse_facts_json`) is an external library; the
  best-effort parser is modelled as a total function parameter
  `parse_fn : String → List FactObj` (the Python wrapper catches the only
  exception `json.loads` raises and returns `[]`, so it is total).
* Wall-clock timestamps (`created_at` / `updated_at`, set from `time.time()`)
  are external effects that no code path ever reads back; they are omitted
  from the row models.
* Fallible state-transforming steps return `Except String Unit × Store`:
  the `Except` part is the exception that escaped the step (if any) and the
  `Store` part is the state at that moment (Python mutates the database as
  it goes, so a raised exception leaves partial writes in place).
-/

/-- A row of `conversation_log` (`memory_db.py`, `MessageRow`). -/
structure Message where
  id : Nat
  role : String
  content : String
  summarized : Bool
deriving DecidableEq, Repr

/-- A stored fact of the `memory_facts` vec0 table.  (Named `StoredFact`
because `Fact` is taken by Mathlib.) -/
structure StoredFact where
  id : Nat
  content : String
  embedding : List Rat
  source : String
  fact_type : String
deriving DecidableEq, Repr

/-- A search result row (`memory_db.py`, `FactRow`): a fact together with its
cosine distance to the query embedding. -/
structure FactRow where
  id : Nat
  content : String
  source : String
  fact_type : String
  distance : Rat
deriving DecidableEq, Repr

/-- A row of `memory_summaries` (`memory_db.py`, `SummaryRow`, plus the
`incorporated` flag that lives in the table). -/
structure Summary where
  id : Nat
  content : String
  source_from_id : Nat
  source_to_id : Nat
  incorporated : Bool
deriving DecidableEq, Repr

/-- The database state: the four tables of `memory_db.py` plus the rowid
counters the backing store keeps for id assignment. -/
structure Store where
  messages : List Message
  facts : List StoredFact
  summaries : List Summary
  baseMemory : String
  nextFactId : Nat
  nextSummaryId : Nat
deriving DecidableEq, Repr

/-- `MemoryConfig` (`memory_config.py`), with its defaults.  `db_path` and
`embedding_model` only configure external resources and are omitted. -/
structure MemoryConfig where
  short_term_threshold : Nat := 30
  short_term_keep : Nat := 10
  long_term_threshold : Nat := 20
  long_term_keep : Nat := 10
  retrieval_top_k : Nat := 5
  retrieval_min_similarity : Rat := 3/10
  embedding_dim : Nat := 768
  duplicate_distance_threshold : Rat := 3/20
deriving Repr

/-- A chat message, the `{role, content}` dicts passed to `chat_fn`. -/
structure ChatMsg where
  role : String
  content : String
deriving DecidableEq, Repr

/-- The memory payload injected into the system prompt
(`memory_manager.py`, `MemoryContext`). -/
structure MemoryContext where
  base_memory : String
  relevant_facts : List String
  formatted : String
deriving DecidableEq, Repr

/-! ## Store operations (`memory_db.py`) -/

/-- `SELECT COUNT(*) FROM conversation_log WHERE summarized = 0`. -/
def count_unsummarized (s : Store) : Nat :=
  (s.messages.filter (fun m => !m.summarized)).length

/-- `SELECT ... FROM conversation_log WHERE summarized = 0 ORDER BY id ASC`.
The store keeps `messages` in ascending id order, which `filter` preserves. -/
def get_unsummarized_messages (s : Store) : List Message :=
  s.messages.filter (fun m => !m.summarized)

/-- `UPDATE conversation_log SET summarized = 1 WHERE id <= ?`. -/
def mark_summarized (s : Store) (up_to_id : Nat) : Store :=
  { s with messages := s.messages.map (fun m =>
      if m.id ≤ up_to_id then { m with summarized := true } else m) }

/-- `INSERT INTO memory_facts ...`; the store assigns the next rowid. -/
def insert_fact (s : Store) (content : String) (embedding : List Rat)
    (source : String) (fact_type : String) : Store :=
  { s with
    facts := s.facts ++
      [{ id := s.nextFactId, content := content, embedding := embedding,
         source := source, fact_type := fact_type }]
    nextFactId := s.nextFactId + 1 }

/-- Insert a row into an ascending-by-distance list (helper for the KNN
model). -/
def insertByDistance (r : FactRow) : List FactRow → List FactRow
  | [] => [r]
  | x :: xs =>
      if r.distance ≤ x.distance then r :: x :: xs else x :: insertByDistance r xs

/-- Sort search rows ascending by distance (helper for the KNN model). -/
def sortByDistance : List FactRow → List FactRow
  | [] => []
  | x :: xs => insertByDistance x (sortByDistance xs)

/-- `search_facts`: KNN over `memory_facts` — score every stored fact with
the metric `dist` (cosine distance, computed by the sqlite-vec extension),
sort ascending by distance and return up to `k` rows. -/
def search_facts (dist : List Rat → List Rat → Rat) (s : Store)
    (query_embedding : List Rat) (k : Nat) : List FactRow :=
  (sortByDistance (s.facts.map (fun f =>
    { id := f.id, content := f.content, source := f.source,
      fact_type := f.fact_type, distance := dist query_embedding f.embedding }))).take k

/-- `DELETE FROM memory_facts WHERE id = ?`. -/
def delete_fact (s : Store) (fact_id : Nat) : Store :=
  { s with facts := s.facts.filter (fun f => f.id ≠ fact_id) }

/-- `INSERT INTO memory_summaries ...` (fresh rows have `incorporated = 0`). -/
def insert_summary (s : Store) (content : String)
    (source_from_id source_to_id : Nat) : Store :=
  { s with
    summaries := s.summaries ++
      [{ id := s.nextSummaryId, content := content,
         source_from_id := source_from_id, source_to_id := source_to_id,
         incorporated := false }]
    nextSummaryId := s.nextSummaryId + 1 }

/-- `SELECT COUNT(*) FROM memory_summaries WHERE incorporated = 0`. -/
def count_unincorporated_summaries (s : Store) : Nat :=
  (s.summaries.filter (fun x => !x.incorporated)).length

/-- `SELECT ... FROM memory_summaries WHERE incorporated = 0 ORDER BY id ASC`. -/
def get_unincorporated_summaries (s : Store) : List Summary :=
  s.summaries.filter (fun x => !x.incorporated)

/-- `UPDATE memory_summaries SET incorporated = 1 WHERE id <= ?`. -/
def mark_incorporated (s : Store) (up_to_id : Nat) : Store :=
  { s with summaries := s.summaries.map (fun x =>
      if x.id ≤ up_to_id then { x with incorporated := true } else x) }

/-- `SELECT content FROM memory_base WHERE id = 1` (the singleton row). -/
def get_base_memory (s : Store) : String :=
  s.baseMemory

/-- `UPDATE memory_base SET content = ? WHERE id = 1`. -/
def set_base_memory (s : Store) (content : String) : Store :=
  { s with baseMemory := content }

/-! ## Python primitives -/

/-- Python's `str.strip()`: drop whitespace from both ends.  (Defined by
structural recursion so the kernel can evaluate it; Lean's `String.trim`
is extensionally the same but is not kernel-reducible.) -/
def pyStrip (s : String) : String :=
  ⟨((s.data.dropWhile Char.isWhitespace).reverse.dropWhile Char.isWhitespace).reverse⟩

/-! ## Python slicing -/

/-- Python's `l[:n]` for an `int` bound `n`: a non-negative bound takes a
prefix, a negative bound drops `|n|` elements from the end (clamped at the
empty list).  Needed because `msgs[: len(msgs) - keep]` goes negative when
`keep > len(msgs)`. -/
def pyTakeInt (l : List α) (n : Int) : List α :=
  if 0 ≤ n then l.take n.toNat else l.take (l.length - n.natAbs)

/-! ## Retrieval (`memory_manager.py`) -/

/-- `MemoryManager._format_context`: the text block injected into the system
prompt.  Python's truthiness tests become emptiness tests. -/
def format_context (base_memory : String) (facts : List String) : String :=
  let parts : List String :=
    (if base_memory ≠ "" then ["[Long-term memory]\n" ++ base_memory] else []) ++
    (if facts ≠ [] then
      ["[Relevant memories]\n" ++
        String.intercalate "\n" (facts.map (fun f => "- " ++ f))]
     else [])
  String.intercalate "\n\n" parts

/-- `MemoryManager.retrieve_context`.  `embed_fn` is the external embedder;
`search_fn` is the behaviour of `db.search_facts` as seen from this call
(both may raise, and the `try` block catches either failure, leaving
`relevant_facts` at its initialisation `[]`). -/
def retrieve_context (cfg : MemoryConfig)
    (embed_fn : String → Except String (List Rat))
    (search_fn : List Rat → Nat → Except String (List FactRow))
    (s : Store) (query : String) : MemoryContext :=
  let base_memory := get_base_memory s
  let relevant_facts : List String :=
    match embed_fn query with
    | .error _ => []
    | .ok query_vec =>
      match search_fn query_vec cfg.retrieval_top_k with
      | .error _ => []
      | .ok results =>
        let max_distance := 1 - cfg.retrieval_min_similarity
        (results.filter (fun r => r.distance ≤ max_distance)).map
          (fun r => r.content)
  { base_memory := base_memory
    relevant_facts := relevant_facts
    formatted := format_context base_memory relevant_facts }

/-! ## Prompt templates (`memory_prompts.py`) -/

/-- `fact_extraction_messages`. -/
def fact_extraction_messages (user_text assistant_text : String) : List ChatMsg :=
  [{ role := "system"
     content :=
       "You are a fact-extraction assistant. Given a conversation exchange " ++
       "between a user and an assistant, extract any new facts worth remembering " ++
       "about the user.\n\n" ++
       "Rules:\n" ++
       "- Output ONLY a JSON array. No commentary, no markdown fences.\n" ++
       "- Each element: \x7b\"fact\": \"...\", \"type\": \"...\"\x7d\n" ++
       "- Valid types: personal, preference, knowledge, event\n" ++
       "- Write each fact as a standalone third-person sentence " ++
       "(e.g. \"The user's name is Alex.\").\n" ++
       "- Be selective: skip chitchat, greetings, filler. Only extract " ++
       "things that would be useful to remember in future conversations.\n" ++
       "- If there are no facts worth extracting, output an empty array: []" },
   { role := "user"
     content :=
       "User said: " ++ user_text ++ "\n" ++
       "Assistant said: " ++ assistant_text ++ "\n\n" ++
       "Extract facts as a JSON array." }]

/-- `summarize_conversation_messages`. -/
def summarize_conversation_messages (conversation_text : String) : List ChatMsg :=
  [{ role := "system"
     content :=
       "You are a conversation summarizer. Condense the following " ++
       "conversation into a 3-5 sentence paragraph.\n\n" ++
       "Rules:\n" ++
       "- Use third person, past tense.\n" ++
       "- Preserve specific details: names, dates, numbers, decisions.\n" ++
       "- Omit greetings, filler, and small talk.\n" ++
       "- Output ONLY the summary paragraph, nothing else." },
   { role := "user", content := conversation_text }]

/-- `distill_base_memory_messages` (Python's `current_base or '(empty)'` is
an emptiness test on the string). -/
def distill_base_memory_messages (current_base new_summaries recent_facts : String) :
    List ChatMsg :=
  [{ role := "system"
     content :=
       "You are a memory manager for a voice assistant called Lo-Bug. " ++
       "Your job is to maintain a concise document that captures everything " ++
       "important about the user.\n\n" ++
       "You will receive:\n" ++
       "1. The current base memory (may be empty on first run)\n" ++
       "2. New conversation summaries\n" ++
       "3. Recently extracted facts\n\n" ++
       "Rules:\n" ++
       "- Integrate the new information into the existing base memory.\n" ++
       "- Organize into sections: User Profile, Preferences, " ++
       "Ongoing Topics, Key History.\n" ++
       "- Remove outdated or contradicted information.\n" ++
       "- Keep the total document under 400 words.\n" ++
       "- Output ONLY the updated base memory document, nothing else." },
   { role := "user"
     content :=
       "=== Current base memory ===\n" ++
       (if current_base = "" then "(empty)" else current_base) ++ "\n\n" ++
       "=== New conversation summaries ===\n" ++ new_summaries ++ "\n\n" ++
       "=== Recent facts ===\n" ++ recent_facts ++ "\n\n" ++
       "Produce the updated base memory document." }]

/-! ## Fact extraction (`memory_manager.py`) -/

/-- One element of the JSON array returned by the extraction model: a dict
that may or may not carry `fact` / `type` keys (`item.get` supplies the
defaults). -/
structure FactObj where
  fact : Option String
  type : Option String
deriving DecidableEq, Repr

/-- `MemoryManager._deduplicate_and_insert`: a `k = 1` search; if the nearest
existing fact is closer than `duplicate_distance_threshold`, delete it; then
insert the new fact unconditionally. -/
def deduplicate_and_insert (cfg : MemoryConfig)
    (dist : List Rat → List Rat → Rat) (s : Store)
    (fact_text : String) (vec : List Rat) (fact_type : String) : Store :=
  let existing := search_facts dist s vec 1
  let s1 :=
    match existing with
    | r :: _ =>
        if r.distance < cfg.duplicate_distance_threshold then delete_fact s r.id
        else s
    | [] => s
  insert_fact s1 fact_text vec "extraction" fact_type

/-- The `for item in facts` loop of `MemoryManager._extract_facts`: skip
items whose stripped `fact` text is empty, embed the rest and run the dedup
insert.  A raised embed exception escapes the loop with the writes made so
far in place. -/
def insert_parsed_facts (cfg : MemoryConfig)
    (embed_fn : String → Except String (List Rat))
    (dist : List Rat → List Rat → Rat) :
    List FactObj → Store → Except String Unit × Store
  | [], s => (.ok (), s)
  | item :: rest, s =>
    let fact_text := pyStrip (item.fact.getD "")
    let fact_type := item.type.getD "knowledge"
    if fact_text = "" then insert_parsed_facts cfg embed_fn dist rest s
    else
      match embed_fn fact_text with
      | .error e => (.error e, s)
      | .ok vec =>
          insert_parsed_facts cfg embed_fn dist rest
            (deduplicate_and_insert cfg dist s fact_text vec fact_type)

/-- `MemoryManager._extract_facts`.  `parse_fn` models
`_parse_facts_json ∘ json.loads` (total: every parse failure is already
mapped to `[]` inside it). -/
def extract_facts (cfg : MemoryConfig)
    (embed_fn : String → Except String (List Rat))
    (chat_fn : List ChatMsg → Except String String)
    (dist : List Rat → List Rat → Rat)
    (parse_fn : String → List FactObj)
    (user_text assistant_text : String) (s : Store) :
    Except String Unit × Store :=
  match chat_fn (fact_extraction_messages user_text assistant_text) with
  | .error e => (.error e, s)
  | .ok raw =>
    let facts := parse_fn raw
    if facts = [] then (.ok (), s)
    else insert_parsed_facts cfg embed_fn dist facts s

/-! ## Cascades (`memory_manager.py`) -/

/-- `MemoryManager._check_short_term_cascade`.  `msgs[: len(msgs) - keep]`
is Python slicing, hence `pyTakeInt` with an `Int` bound. -/
def check_short_term_cascade (cfg : MemoryConfig)
    (chat_fn : List ChatMsg → Except String String) (s : Store) :
    Except String Unit × Store :=
  let count := count_unsummarized s
  if count < cfg.short_term_threshold then (.ok (), s)
  else
    let msgs := get_unsummarized_messages s
    let to_summarize := pyTakeInt msgs ((msgs.length : Int) - (cfg.short_term_keep : Int))
    if h : to_summarize = [] then (.ok (), s)
    else
      let conv_text := String.intercalate "\n"
        (to_summarize.map (fun m => m.role.capitalize ++ ": " ++ m.content))
      match chat_fn (summarize_conversation_messages conv_text) with
      | .error e => (.error e, s)
      | .ok raw =>
        let summary := pyStrip raw
        let s1 := insert_summary s summary
          (to_summarize.head h).id (to_summarize.getLast h).id
        let s2 := mark_summarized s1 (to_summarize.getLast h).id
        (.ok (), s2)

/-- `MemoryManager._check_long_term_cascade`.  The inner `try` around the
recent-facts probe swallows an embed failure (the store-side search itself
is modelled as total). -/
def check_long_term_cascade (cfg : MemoryConfig)
    (embed_fn : String → Except String (List Rat))
    (chat_fn : List ChatMsg → Except String String)
    (dist : List Rat → List Rat → Rat) (s : Store) :
    Except String Unit × Store :=
  let count := count_unincorporated_summaries s
  if count < cfg.long_term_threshold then (.ok (), s)
  else
    let summaries := get_unincorporated_summaries s
    let to_incorporate := pyTakeInt summaries ((summaries.length : Int) - (cfg.long_term_keep : Int))
    if h : to_incorporate = [] then (.ok (), s)
    else
      let current_base := get_base_memory s
      let summaries_text := String.intercalate "\n\n"
        (to_incorporate.map (fun x => x.content))
      let recent_facts_text :=
        match embed_fn "user information and preferences" with
        | .error _ => ""
        | .ok vec =>
          let facts := search_facts dist s vec 10
          if facts ≠ [] then
            String.intercalate "\n" (facts.map (fun f => "- " ++ f.content))
          else ""
      match chat_fn (distill_base_memory_messages current_base summaries_text
          recent_facts_text) with
      | .error e => (.error e, s)
      | .ok raw =>
        let s1 := set_base_memory s (pyStrip raw)
        let s2 := mark_incorporated s1 (to_incorporate.getLast h).id
        (.ok (), s2)

/-- `MemoryManager.process_exchange`: run the three steps in order, each in
its own `try/except` that logs and swallows the failure, keeping whatever
state the failed step left behind. -/
def process_exchange (cfg : MemoryConfig)
    (embed_fn : String → Except String (List Rat))
    (chat_fn : List ChatMsg → Except String String)
    (dist : List Rat → List Rat → Rat)
    (parse_fn : String → List FactObj)
    (user_text assistant_text : String) (s : Store) :
    Except String Unit × Store :=
  let s1 := (extract_facts cfg embed_fn chat_fn dist parse_fn
    user_text assistant_text s).2
  let s2 := (check_short_term_cascade cfg chat_fn s1).2
  let s3 := (check_long_term_cascade cfg embed_fn chat_fn dist s2).2
  (.ok (), s3)

/-! ## Helper definitions for concrete instances -/

/-- The empty store, as left by `MemoryDB.initialize` (base memory `""`). -/
def emptyStore : Store :=
  { messages := [], facts := [], summaries := [], baseMemory := ""
    nextFactId := 0, nextSummaryId := 0 }

/-- A store whose log holds `n` unsummarized user messages with ids `1..n`. -/
def logStore (n : Nat) : Store :=
  { emptyStore with
    messages := (List.range n).map (fun i =>
      { id := i + 1, role := "user", content := "m", summarized := false }) }

/-- A store holding `n` unincorporated summaries with ids `1..n`. -/
def summaryStore (n : Nat) : Store :=
  { emptyStore with
    summaries := (List.range n).map (fun i =>
      { id := i + 1, content := "s", source_from_id := i + 1,
        source_to_id := i + 1, incorporated := false }) }

/-! ## Helper lemmas -/

/-- A string with a nonempty left part is nonempty. -/
theorem string_append_ne_empty (a b : String) (h : a ≠ "") : a ++ b ≠ "" := by
  intro hab
  apply h
  have hd := congrArg String.data hab
  rw [String.data_append] at hd
  have ha : a.data = [] := (List.append_eq_nil.mp hd).1
  obtain ⟨l⟩ := a
  have hl : l = [] := by simpa using ha
  subst hl
  rfl

/-- `String.intercalate.go` leaves a lone accumulator alone. -/
theorem intercalate_go_nil (a sep : String) :
    String.intercalate.go a sep [] = a := rfl

/-- `String.intercalate.go` on one remaining element appends separator and
element. -/
theorem intercalate_go_single (a sep b : String) :
    String.intercalate.go a sep [b] = a ++ sep ++ b := rfl

/-! ## Theorems -/

/-- C5: `_format_context` emits the "Long-term memory" block exactly when the
base memory is non-empty and the "Relevant memories" bulleted block exactly
when at least one fact survived; present blocks are joined by one blank line
(`"\n\n"`), and the result is `""` iff both inputs are empty. -/
theorem format_context_blocks (base_memory : String) (facts : List String) :
    (format_context base_memory facts =
      if base_memory = "" then
        (if facts = [] then ""
         else "[Relevant memories]\n" ++
           String.intercalate "\n" (facts.map (fun f => "- " ++ f)))
      else
        (if facts = [] then "[Long-term memory]\n" ++ base_memory
         else ("[Long-term memory]\n" ++ base_memory) ++ "\n\n" ++
           ("[Relevant memories]\n" ++
             String.intercalate "\n" (facts.map (fun f => "- " ++ f))))) ∧
    (format_context base_memory facts = "" ↔ (base_memory = "" ∧ facts = [])) := by
  have hmain : format_context base_memory facts =
      if base_memory = "" then
        (if facts = [] then ""
         else "[Relevant memories]\n" ++
           String.intercalate "\n" (facts.map (fun f => "- " ++ f)))
      else
        (if facts = [] then "[Long-term memory]\n" ++ base_memory
         else ("[Long-term memory]\n" ++ base_memory) ++ "\n\n" ++
           ("[Relevant memories]\n" ++
             String.intercalate "\n" (facts.map (fun f => "- " ++ f)))) := by
    rcases eq_or_ne base_memory "" with hb | hb <;>
      rcases eq_or_ne facts [] with hf | hf <;>
        simp [format_context, hb, hf, String.intercalate,
          intercalate_go_nil, intercalate_go_single]
  refine ⟨hmain, ?_⟩
  rw [hmain]
  rcases eq_or_ne base_memory "" with hb | hb <;>
    rcases eq_or_ne facts [] with hf | hf <;> simp [hb, hf]
  · exact string_append_ne_empty "[Relevant memories]\n" _ (by decide)
  · exact string_append_ne_empty "[Long-term memory]\n" _ (by decide)
  · exact string_append_ne_empty _ _
      (string_append_ne_empty "[Long-term memory]\n" _ (by decide))

/-- C8: the summarized watermark is monotonic and idempotent — a second
`mark_summarized` with a stale (smaller) id leaves the store, and hence the
unsummarized count, unchanged; and `mark_summarized` never un-marks a row. -/
theorem mark_summarized_monotone (s : Store) (a b : Nat) (hba : b ≤ a) :
    mark_summarized (mark_summarized s a) b = mark_summarized s a ∧
    count_unsummarized (mark_summarized (mark_summarized s a) b) =
      count_unsummarized (mark_summarized s a) ∧
    (∀ k : Nat, ∀ m ∈ s.messages, m.summarized = true →
      ∃ m' ∈ (mark_summarized s k).messages, m'.id = m.id ∧ m'.summarized = true) := by
  have hmark : mark_summarized (mark_summarized s a) b = mark_summarized s a := by
    simp only [mark_summarized, List.map_map]
    have hfun : ((fun m : Message =>
          if m.id ≤ b then { m with summarized := true } else m) ∘
        (fun m : Message =>
          if m.id ≤ a then { m with summarized := true } else m)) =
        (fun m : Message =>
          if m.id ≤ a then { m with summarized := true } else m) := by
      funext m
      by_cases hb2 : m.id ≤ b
      · simp [Function.comp, hb2, le_trans hb2 hba]
      · by_cases ha2 : m.id ≤ a <;> simp [Function.comp, ha2, hb2]
    rw [hfun]
  refine ⟨hmark, by rw [hmark], ?_⟩
  intro k m hm hsum
  by_cases hk : m.id ≤ k
  · exact ⟨{ m with summarized := true }, by
      simp [mark_summarized]
      exact ⟨m, hm, by simp [hk]⟩, rfl, rfl⟩
  · exact ⟨m, by
      simp [mark_summarized]
      exact ⟨m, hm, by simp [hk, hsum]⟩, rfl, hsum⟩

/-- C8 witness: marking up to 5 and then up to 3 on a concrete 6-message log
is the same as marking up to 5 alone. -/
theorem mark_summarized_monotone_witness :
    mark_summarized (mark_summarized (logStore 6) 5) 3 =
      mark_summarized (logStore 6) 5 ∧
    count_unsummarized (mark_summarized (mark_summarized (logStore 6) 5) 3) =
      count_unsummarized (mark_summarized (logStore 6) 5) :=
  ⟨(mark_summarized_monotone (logStore 6) 5 3 (by decide)).1,
   (mark_summarized_monotone (logStore 6) 5 3 (by decide)).2.1⟩

/-- C1: `retrieve_context` always returns a `MemoryContext` (it is a total
function); its `base_memory` is always the stored base-memory text, and when
the embed call or the fact search fails, `relevant_facts` is `[]`. -/
theorem retrieve_context_degrades_gracefully (cfg : MemoryConfig)
    (embed_fn : String → Except String (List Rat))
    (search_fn : List Rat → Nat → Except String (List FactRow))
    (s : Store) (query : String) :
    (retrieve_context cfg embed_fn search_fn s query).base_memory =
      get_base_memory s ∧
    (∀ e, embed_fn query = .error e →
      (retrieve_context cfg embed_fn search_fn s query).relevant_facts = []) ∧
    (∀ qv e, embed_fn query = .ok qv →
      search_fn qv cfg.retrieval_top_k = .error e →
      (retrieve_context cfg embed_fn search_fn s query).relevant_facts = []) := by
  refine ⟨rfl, ?_, ?_⟩
  · intro e he
    simp [retrieve_context, he]
  · intro qv e hq hs
    simp [retrieve_context, hq, hs]

/-- C1 witness: with a raising embedder the facts are empty and the base
memory is the stored text. -/
theorem retrieve_context_degrades_gracefully_witness :
    (retrieve_context {} (fun _ => .error "embed down") (fun _ _ => .ok [])
        (set_base_memory emptyStore "likes cats") "hello").relevant_facts = [] ∧
    (retrieve_context {} (fun _ => .error "embed down") (fun _ _ => .ok [])
        (set_base_memory emptyStore "likes cats") "hello").base_memory =
      "likes cats" :=
  ⟨(retrieve_context_degrades_gracefully {} (fun _ => .error "embed down")
      (fun _ _ => .ok []) (set_base_memory emptyStore "likes cats")
      "hello").2.1 "embed down" rfl,
   (retrieve_context_degrades_gracefully {} (fun _ => .error "embed down")
      (fun _ _ => .ok []) (set_base_memory emptyStore "likes cats") "hello").1⟩

/-- C2: `process_exchange` never propagates an exception, whatever the chat
and embed functions do — each of the three steps (fact extraction,
short-term cascade, long-term cascade) has its failure caught. -/
theorem process_exchange_never_raises (cfg : MemoryConfig)
    (embed_fn : String → Except String (List Rat))
    (chat_fn : List ChatMsg → Except String String)
    (dist : List Rat → List Rat → Rat)
    (parse_fn : String → List FactObj)
    (user_text assistant_text : String) (s : Store) :
    (process_exchange cfg embed_fn chat_fn dist parse_fn
      user_text assistant_text s).1 = .ok () := rfl

/-- C6: every fact that `retrieve_context` keeps comes from a search result
whose cosine distance is at most `1 - retrieval_min_similarity`. -/
theorem retrieve_context_similarity_filter (cfg : MemoryConfig)
    (embed_fn : String → Except String (List Rat))
    (search_fn : List Rat → Nat → Except String (List FactRow))
    (s : Store) (query : String) (qv : List Rat) (results : List FactRow)
    (hq : embed_fn query = .ok qv)
    (hs : search_fn qv cfg.retrieval_top_k = .ok results) :
    ∀ f ∈ (retrieve_context cfg embed_fn search_fn s query).relevant_facts,
      ∃ r ∈ results, f = r.content ∧
        r.distance ≤ 1 - cfg.retrieval_min_similarity := by
  intro f hf
  simp only [retrieve_context, hq, hs, List.mem_map, List.mem_filter,
    decide_eq_true_eq] at hf
  obtain ⟨r, ⟨hr, hd⟩, hrf⟩ := hf
  exact ⟨r, hr, hrf.symm, hd⟩

/-- A chat function that always answers with a fixed summary text. -/
def chatSummarizer : List ChatMsg → Except String String :=
  fun _ => .ok "They talked."

/-- C4: with the default configuration (`short_term_threshold = 30`,
`short_term_keep = 10`) and exactly 31 unsummarized messages with ids 1–31,
the short-term cascade succeeds, inserts exactly one summary covering
message ids 1–21 whose content is the (stripped) chat output, marks exactly
the messages with id ≤ 21 as summarized, and leaves 10 unsummarized. -/
theorem short_term_cascade_31_messages :
    count_unsummarized (logStore 31) = 31 ∧
    (check_short_term_cascade {} chatSummarizer (logStore 31)).1 = .ok () ∧
    ((check_short_term_cascade {} chatSummarizer (logStore 31)).2.summaries.map
      (fun x => (x.content, x.source_from_id, x.source_to_id, x.incorporated))) =
      [("They talked.", 1, 21, false)] ∧
    count_unsummarized
      (check_short_term_cascade {} chatSummarizer (logStore 31)).2 = 10 ∧
    (∀ m ∈ (check_short_term_cascade {} chatSummarizer (logStore 31)).2.messages,
      m.summarized = decide (m.id ≤ 21)) :=
  ⟨by decide, rfl, by decide, by decide, by decide⟩

/-- A misconfigured short-term cascade: threshold 5, keep 7. -/
def cfgShortMisconfig : MemoryConfig :=
  { short_term_threshold := 5, short_term_keep := 7 }

/-- A misconfigured long-term cascade: threshold 5, keep 7. -/
def cfgLongMisconfig : MemoryConfig :=
  { long_term_threshold := 5, long_term_keep := 7 }

/-- C3 is false of the code: with `keep = 7 ≥ 6 = ` number of unprocessed
rows and the trigger fired (6 ≥ threshold 5), Python's
`msgs[: len(msgs) - keep]` is `msgs[:-1]`, i.e. all but the last row, so
the cascade is *not* a no-op: the short-term cascade summarizes ids 1–5 and
advances the watermark, and the long-term cascade overwrites the base
memory and advances its watermark — for the same shape of misconfiguration. -/
theorem cascade_misconfig_not_noop :
    cfgShortMisconfig.short_term_threshold ≤ count_unsummarized (logStore 6) ∧
    count_unsummarized (logStore 6) ≤ cfgShortMisconfig.short_term_keep ∧
    ((check_short_term_cascade cfgShortMisconfig chatSummarizer
        (logStore 6)).2.summaries.map
      (fun x => (x.source_from_id, x.source_to_id))) = [(1, 5)] ∧
    count_unsummarized
      (check_short_term_cascade cfgShortMisconfig chatSummarizer
        (logStore 6)).2 = 1 ∧
    cfgLongMisconfig.long_term_threshold ≤
      count_unincorporated_summaries (summaryStore 6) ∧
    count_unincorporated_summaries (summaryStore 6) ≤
      cfgLongMisconfig.long_term_keep ∧
    (check_long_term_cascade cfgLongMisconfig (fun _ => .error "down")
        chatSummarizer (fun _ _ => 0) (summaryStore 6)).2.baseMemory =
      "They talked." ∧
    count_unincorporated_summaries
      (check_long_term_cascade cfgLongMisconfig (fun _ => .error "down")
        chatSummarizer (fun _ _ => 0) (summaryStore 6)).2 = 1 :=
  ⟨by decide, by decide, by decide, by decide, by decide, by decide,
   by decide, by decide⟩

/-- C9: if the chat call raises during a short-term cascade, the store is
left exactly as it was — no summary row, no watermark movement, and the
unsummarized count (hence the next candidate selection) is unchanged. -/
theorem short_term_cascade_chat_failure_leaves_store (cfg : MemoryConfig)
    (e : String) (s : Store)
    (_htrig : cfg.short_term_threshold ≤ count_unsummarized s) :
    (check_short_term_cascade cfg (fun _ => .error e) s).2 = s ∧
    (check_short_term_cascade cfg (fun _ => .error e) s).2.summaries =
      s.summaries ∧
    count_unsummarized (check_short_term_cascade cfg (fun _ => .error e) s).2 =
      count_unsummarized s := by
  have h2 : (check_short_term_cascade cfg (fun _ => .error e) s).2 = s := by
    simp only [check_short_term_cascade]
    split
    · rfl
    · split
      · rfl
      · rfl
  exact ⟨h2, by rw [h2], by rw [h2]⟩

/-- C9 witness: a concrete triggered cascade with a raising chat function
leaves the one-message store untouched. -/
theorem short_term_cascade_chat_failure_witness :
    (check_short_term_cascade { short_term_threshold := 1 }
      (fun _ => .error "chat down") (logStore 1)).2 = logStore 1 :=
  (short_term_cascade_chat_failure_leaves_store { short_term_threshold := 1 }
    "chat down" (logStore 1) (by decide)).1

/-- C7: `_deduplicate_and_insert` deletes the nearest fact returned by the
`k = 1` search exactly when its distance is strictly below
`duplicate_distance_threshold`, and inserts the new fact in every case. -/
theorem deduplicate_and_insert_spec (cfg : MemoryConfig)
    (dist : List Rat → List Rat → Rat) (s : Store)
    (fact_text : String) (vec : List Rat) (fact_type : String) :
    (∀ r rest, search_facts dist s vec 1 = r :: rest →
      r.distance < cfg.duplicate_distance_threshold →
      (deduplicate_and_insert cfg dist s fact_text vec fact_type).facts =
        (delete_fact s r.id).facts ++
          [{ id := s.nextFactId, content := fact_text, embedding := vec,
             source := "extraction", fact_type := fact_type }]) ∧
    (∀ r rest, search_facts dist s vec 1 = r :: rest →
      ¬ r.distance < cfg.duplicate_distance_threshold →
      (deduplicate_and_insert cfg dist s fact_text vec fact_type).facts =
        s.facts ++
          [{ id := s.nextFactId, content := fact_text, embedding := vec,
             source := "extraction", fact_type := fact_type }]) ∧
    (search_facts dist s vec 1 = [] →
      (deduplicate_and_insert cfg dist s fact_text vec fact_type).facts =
        s.facts ++
          [{ id := s.nextFactId, content := fact_text, embedding := vec,
             source := "extraction", fact_type := fact_type }]) := by
  refine ⟨?_, ?_, ?_⟩
  · intro r rest hres hlt
    simp [deduplicate_and_insert, hres, hlt, insert_fact, delete_fact]
  · intro r rest hres hlt
    simp [deduplicate_and_insert, hres, hlt, insert_fact]
  · intro hres
    simp [deduplicate_and_insert, hres, insert_fact]

/-- A store holding one fact, for the dedup scenario. -/
def storeCoffee : Store :=
  { emptyStore with
    facts := [{ id := 7, content := "The user likes coffee", embedding := [1],
                source := "extraction", fact_type := "preference" }]
    nextFactId := 8 }

/-- A distance metric under which everything is at cosine distance 0.05. -/
def dist005 : List Rat → List Rat → Rat := fun _ _ => 0.05

/-- C7 witness: the spec's concrete scenario — one existing fact at
distance 0.05 with threshold 0.15: afterwards the old fact is gone and
exactly one fact with the new content is present. -/
theorem deduplicate_and_insert_witness :
    (deduplicate_and_insert {} dist005 storeCoffee "The user likes tea" [2]
      "preference").facts =
      [{ id := 8, content := "The user likes tea", embedding := [2],
         source := "extraction", fact_type := "preference" }] := by
  have h := (deduplicate_and_insert_spec {} dist005 storeCoffee
    "The user likes tea" [2] "preference").1
    { id := 7, content := "The user likes coffee", source := "extraction",
      fact_type := "preference", distance := 0.05 } [] rfl (by norm_num)
  rw [h]
  rfl

/-- C10: in the extraction loop, a parsed object with non-empty stripped
fact text is inserted with `fact_type` exactly `item.type.getD "knowledge"`:
a missing `type` key becomes `"knowledge"`, and any present value — valid or
not — is stored as-is, with no validation against
{personal, preference, knowledge, event}. -/
theorem extract_facts_type_taken_as_is (cfg : MemoryConfig)
    (embed_fn : String → Except String (List Rat))
    (dist : List Rat → List Rat → Rat) (item : FactObj) (s : Store)
    (vec : List Rat)
    (h1 : pyStrip (item.fact.getD "") ≠ "")
    (h2 : embed_fn (pyStrip (item.fact.getD "")) = .ok vec) :
    (insert_parsed_facts cfg embed_fn dist [item] s).1 = .ok () ∧
    ∃ pre, (insert_parsed_facts cfg embed_fn dist [item] s).2.facts =
      pre ++ [{ id := s.nextFactId, content := pyStrip (item.fact.getD ""),
                embedding := vec, source := "extraction",
                fact_type := item.type.getD "knowledge" }] := by
  constructor
  · simp [insert_parsed_facts, h1, h2]
  · rcases hres : search_facts dist s vec 1 with _ | ⟨r, rest⟩
    · exact ⟨s.facts, by
        simp [insert_parsed_facts, h1, h2, deduplicate_and_insert, hres,
          insert_fact]⟩
    · by_cases hlt : r.distance < cfg.duplicate_distance_threshold
      · exact ⟨(delete_fact s r.id).facts, by
          simp [insert_parsed_facts, h1, h2, deduplicate_and_insert, hres,
            hlt, insert_fact, delete_fact]⟩
      · exact ⟨s.facts, by
          simp [insert_parsed_facts, h1, h2, deduplicate_and_insert, hres,
            hlt, insert_fact]⟩

/-- C10 witness: an object with an unknown type `"banana"` is inserted with
`fact_type = "banana"` (no validation); the loop reports success. -/
theorem extract_facts_type_taken_as_is_witness :
    (insert_parsed_facts {} (fun _ => .ok [1]) (fun _ _ => 0)
      [{ fact := some "The user likes tea", type := some "banana" }]
      emptyStore).1 = .ok () ∧
    ∃ pre, (insert_parsed_facts {} (fun _ => .ok [1]) (fun _ _ => 0)
      [{ fact := some "The user likes tea", type := some "banana" }]
      emptyStore).2.facts =
      pre ++ [{ id := 0, content := pyStrip "The user likes tea",
                embedding := [1], source := "extraction",
                fact_type := "banana" }] :=
  extract_facts_type_taken_as_is {} (fun _ => .ok [1]) (fun _ _ => 0)
    { fact := some "The user likes tea", type := some "banana" } emptyStore
    [1] (by decide) rfl

/-- A concrete search row at distance `1/2`, used by concrete instances. -/
def rowHalf : FactRow :=
  { id := 1, content := "f", source := "extraction",
    fact_type := "knowledge", distance := 1/2 }

/-- C6 witness: with one search result at distance `1/2` and the default
similarity floor `3/10`, the kept fact satisfies the bound. -/
theorem retrieve_context_similarity_filter_witness :
    ∃ r ∈ [rowHalf], "f" = r.content ∧
      r.distance ≤ 1 - ({} : MemoryConfig).retrieval_min_similarity := by
  have hmem : "f" ∈ (retrieve_context {} (fun _ => .ok [1])
      (fun _ _ => .ok [rowHalf]) emptyStore "q").relevant_facts := by
    norm_num [retrieve_context, rowHalf]
  exact retrieve_context_similarity_filter {} (fun _ => .ok [1])
    (fun _ _ => .ok [rowHalf]) emptyStore "q" [1] [rowHalf] rfl rfl "f" hmem
